import Mathlib

/-
Verification of the `backoff` Go package (exponential backoff with jitter).

Embedding conventions:
* `time.Duration` is Go's int64 nanosecond count.  Durations are modelled as
  `ℤ`; the one place the source performs arithmetic that can leave the int64
  range (`b.delay *= 2` in `computeDelay`) is modelled with explicit
  two's-complement wraparound (`wrap64`), exactly as Go defines signed
  overflow.  Constructor inputs are `time.Duration` values, hence already
  in range.
* `float64` values (`jitterFactor`, the random draw `rand.Float64()`, and the
  jitter product in `computeDelay`) are modelled as exact rationals `ℚ`;
  `rand.Float64()` is an arbitrary draw `u` with `0 ≤ u < 1`, threaded as an
  explicit argument.  `math.Round` (round half away from zero) is `goRound`.
* Go methods that mutate the receiver are functions returning the updated
  state; `computeDelay` returns the pair (returned duration, updated state).
* A configuration option `func(*Backoff, bool) error` is a function from the
  state and the coerce flag to the updated state and an optional error
  message (`errors.New` messages are kept verbatim).
-/

namespace BackoffPkg

/-- Two's-complement wraparound of an integer into the int64 range
`[-2^63, 2^63)`, Go's defined semantics for signed-integer overflow. -/
def wrap64 (x : ℤ) : ℤ := (x + 2 ^ 63) % 2 ^ 64 - 2 ^ 63

/-- The `Backoff` struct: `delay`, `baseDelay`, `expLimit` are
`time.Duration` (int64 nanoseconds, modelled as `ℤ`); `jitterFactor` is a
`float64` (modelled as `ℚ`). -/
structure Backoff where
  delay : ℤ
  baseDelay : ℤ
  expLimit : ℤ
  jitterFactor : ℚ
  deriving Repr, DecidableEq

/-- `type backoffOption func(*Backoff, bool) error`: takes the state and the
coerce flag, returns the updated state and `none` for a nil error or
`some msg` for `errors.New(msg)`. -/
def backoffOption : Type := Backoff → Bool → Backoff × Option String

/-- `defaultInitDelay = time.Millisecond * 100` in nanoseconds. -/
def defaultInitDelay : ℤ := 100 * 1000000

/-- `defaultBaseDelay = time.Millisecond * 100` in nanoseconds. -/
def defaultBaseDelay : ℤ := 100 * 1000000

/-- `defaultExpLimit = time.Minute * 3` in nanoseconds. -/
def defaultExpLimit : ℤ := 3 * 60 * 1000000000

/-- `defaultJitterFactor = 0.3`. -/
def defaultJitterFactor : ℚ := 3 / 10

/-- `defaultBackoff()` constructs the struct with all defaults. -/
def defaultBackoff : Backoff :=
  { delay := defaultInitDelay
    baseDelay := defaultBaseDelay
    expLimit := defaultExpLimit
    jitterFactor := defaultJitterFactor }

/-- `WithInitialDelay`: accepts `d >= 0`; otherwise errors in strict mode and
coerces to `0` in coercing mode. -/
def WithInitialDelay (d : ℤ) : backoffOption := fun b coerce =>
  if 0 ≤ d then ({ b with delay := d }, none)
  else if coerce then ({ b with delay := 0 }, none)
  else (b, some "the initial delay must be >= 0")

/-- `WithBaseDelay`: accepts `d > 0`; otherwise errors in strict mode and
keeps the current (default) value in coercing mode. -/
def WithBaseDelay (d : ℤ) : backoffOption := fun b coerce =>
  if 0 < d then ({ b with baseDelay := d }, none)
  else if coerce then (b, none)
  else (b, some "the base delay must be > 0")

/-- `WithExponentialLimit`: accepts `d >= 0`; otherwise errors in strict mode
and coerces to `0` in coercing mode. -/
def WithExponentialLimit (d : ℤ) : backoffOption := fun b coerce =>
  if 0 ≤ d then ({ b with expLimit := d }, none)
  else if coerce then ({ b with expLimit := 0 }, none)
  else (b, some "the exponential backoff limit must be >= 0")

/-- `WithJitterFactor`: accepts `0 <= j < 1`; otherwise errors in strict
mode; in coercing mode a negative factor becomes `0` and a factor `>= 1`
keeps the current (default) value. -/
def WithJitterFactor (jitterFactor : ℚ) : backoffOption := fun b coerce =>
  if 0 ≤ jitterFactor ∧ jitterFactor < 1 then
    ({ b with jitterFactor := jitterFactor }, none)
  else if coerce then
    if jitterFactor < 0 then ({ b with jitterFactor := 0 }, none)
    else (b, none)
  else (b, some "the jitterFactor must be in the range [0,1)")

/-- The option-application loop of `New`: applies each option in order with
`coerce = false`, threading the state and accumulating the non-nil error
messages in order, as `errors.Join` does. -/
def newLoop (options : List backoffOption) (b : Backoff) (errs : List String) :
    Backoff × List String :=
  match options with
  | [] => (b, errs)
  | o :: rest =>
    let p := o b false
    newLoop rest p.1 (errs ++ p.2.toList)

/-- `New`: strict constructor.  Starts from `defaultBackoff`, applies every
option with `coerce = false`, and fails with the accumulated error messages
when any option errored (`errs != nil`), returning no object. -/
def New (options : List backoffOption) : Except (List String) Backoff :=
  let r := newLoop options defaultBackoff []
  if r.2 = [] then Except.ok r.1 else Except.error r.2

/-- The option-application loop of `CoerceNew`: applies each option in order
with `coerce = true`, discarding the (always-nil) errors. -/
def coerceLoop (options : List backoffOption) (b : Backoff) : Backoff :=
  match options with
  | [] => b
  | o :: rest => coerceLoop rest (o b true).1

/-- `CoerceNew`: coercing constructor.  Starts from `defaultBackoff` and
applies every option with `coerce = true`; never fails. -/
def CoerceNew (options : List backoffOption) : Backoff :=
  coerceLoop options defaultBackoff

/-- `PeekDelay`: returns `b.delay` without touching the state or drawing
randomness (it is a plain function of the state). -/
def PeekDelay (b : Backoff) : ℤ := b.delay

/-- `math.Round`: round to the nearest integer, halves away from zero
(for `x ≥ 0` this is `round`, i.e. halves up). -/
def goRound (x : ℚ) : ℤ := if x < 0 then -round (-x) else round x

/-- `computeDelay`, given the draw `u = rand.Float64()`: computes the
jittered duration `round(float64(b.delay) * (1 + (u-0.5)*jitterFactor))`,
then updates `delay` for the next round (`b.delay = b.baseDelay` when zero,
`b.delay *= 2` — int64 arithmetic, hence `wrap64` — while below `expLimit`,
unchanged otherwise), and returns the jittered duration.  Returned as
(returned duration, updated state). -/
def computeDelay (b : Backoff) (u : ℚ) : ℤ × Backoff :=
  let j : ℚ := 1 + (u - 1 / 2) * b.jitterFactor
  let d : ℚ := (b.delay : ℚ) * j
  let delay' : ℤ :=
    if b.delay = 0 then b.baseDelay
    else if b.delay < b.expLimit then wrap64 (2 * b.delay)
    else b.delay
  (goRound d, { b with delay := delay' })

/-- The state after one `computeDelay` call.  The state update does not
depend on the random draw (proved below), so any fixed draw gives the
successor state; `1/2` makes the jitter multiplier exactly `1`. -/
def advanceState (b : Backoff) : Backoff := (computeDelay b (1 / 2)).2

/-- A supplied configuration setting, as concrete data; `toOption` maps it to
the corresponding option closure from the source.  Lets theorems quantify
over lists of supplied settings. -/
inductive Setting where
  | initialDelay (d : ℤ)
  | baseDelay (d : ℤ)
  | expLimit (d : ℤ)
  | jitterFactor (j : ℚ)

/-- The option closure a setting denotes. -/
def Setting.toOption : Setting → backoffOption
  | .initialDelay d => WithInitialDelay d
  | .baseDelay d => WithBaseDelay d
  | .expLimit d => WithExponentialLimit d
  | .jitterFactor j => WithJitterFactor j

/-- The constraint each setting must satisfy (spec table, and the `if`
guards of the option closures). -/
def Setting.valid : Setting → Prop
  | .initialDelay d => 0 ≤ d
  | .baseDelay d => 0 < d
  | .expLimit d => 0 ≤ d
  | .jitterFactor j => 0 ≤ j ∧ j < 1

instance (s : Setting) : Decidable s.valid :=
  match s with
  | .initialDelay d => inferInstanceAs (Decidable (0 ≤ d))
  | .baseDelay d => inferInstanceAs (Decidable (0 < d))
  | .expLimit d => inferInstanceAs (Decidable (0 ≤ d))
  | .jitterFactor j => inferInstanceAs (Decidable (0 ≤ j ∧ j < 1))

/-- The field update a valid setting performs. -/
def Setting.set : Setting → Backoff → Backoff
  | .initialDelay d, b => { b with delay := d }
  | .baseDelay d, b => { b with baseDelay := d }
  | .expLimit d, b => { b with expLimit := d }
  | .jitterFactor j, b => { b with jitterFactor := j }

/-- The error message a setting produces in strict mode (`none` when the
setting is valid); messages verbatim from the source's `errors.New` calls. -/
def Setting.errMsg : Setting → Option String
  | .initialDelay d =>
      if 0 ≤ d then none else some "the initial delay must be >= 0"
  | .baseDelay d =>
      if 0 < d then none else some "the base delay must be > 0"
  | .expLimit d =>
      if 0 ≤ d then none else some "the exponential backoff limit must be >= 0"
  | .jitterFactor j =>
      if 0 ≤ j ∧ j < 1 then none
      else some "the jitterFactor must be in the range [0,1)"

theorem Setting.errMsg_eq_none {s : Setting} : s.errMsg = none ↔ s.valid := by
  cases s <;> simp only [Setting.errMsg, Setting.valid] <;> split <;>
    simp_all

theorem Setting.toOption_false (s : Setting) (b : Backoff) :
    s.toOption b false = (if s.valid then s.set b else b, s.errMsg) := by
  cases s with
  | initialDelay d =>
      by_cases h : (0 : ℤ) ≤ d <;>
        simp [Setting.toOption, WithInitialDelay, Setting.valid, Setting.set,
          Setting.errMsg, h]
  | baseDelay d =>
      by_cases h : (0 : ℤ) < d <;>
        simp [Setting.toOption, WithBaseDelay, Setting.valid, Setting.set,
          Setting.errMsg, h]
  | expLimit d =>
      by_cases h : (0 : ℤ) ≤ d <;>
        simp [Setting.toOption, WithExponentialLimit, Setting.valid,
          Setting.set, Setting.errMsg, h]
  | jitterFactor j =>
      by_cases h : 0 ≤ j ∧ j < 1 <;>
        simp [Setting.toOption, WithJitterFactor, Setting.valid, Setting.set,
          Setting.errMsg, h]

theorem Setting.toOption_true_snd (s : Setting) (b : Backoff) :
    (s.toOption b true).2 = none := by
  cases s with
  | initialDelay d =>
      by_cases h : (0 : ℤ) ≤ d <;> simp [Setting.toOption, WithInitialDelay, h]
  | baseDelay d =>
      by_cases h : (0 : ℤ) < d <;> simp [Setting.toOption, WithBaseDelay, h]
  | expLimit d =>
      by_cases h : (0 : ℤ) ≤ d <;>
        simp [Setting.toOption, WithExponentialLimit, h]
  | jitterFactor j =>
      by_cases h : 0 ≤ j ∧ j < 1 <;>
        by_cases h' : j < 0 <;>
          simp [Setting.toOption, WithJitterFactor, h, h']

theorem Setting.toOption_true_of_valid (s : Setting) (b : Backoff)
    (h : s.valid) : s.toOption b true = (s.set b, none) := by
  cases s with
  | initialDelay d =>
      simp only [Setting.valid] at h
      simp [Setting.toOption, WithInitialDelay, Setting.set, h]
  | baseDelay d =>
      simp only [Setting.valid] at h
      simp [Setting.toOption, WithBaseDelay, Setting.set, h]
  | expLimit d =>
      simp only [Setting.valid] at h
      simp [Setting.toOption, WithExponentialLimit, Setting.set, h]
  | jitterFactor j =>
      simp only [Setting.valid] at h
      simp [Setting.toOption, WithJitterFactor, Setting.set, h]

/-- The configuration of the spec's concrete scenario family: initial delay
0, base delay `b`, exponential limit `L` (built by the coercing
constructor; for valid inputs both constructors agree). -/
def configB (b L : ℤ) : Backoff :=
  CoerceNew [(Setting.initialDelay 0).toOption, (Setting.baseDelay b).toOption,
    (Setting.expLimit L).toOption]

/-- The nominal (pre-jitter) delay observed before the `n`-th `advance`:
`delay` after `n` state updates from `configB b L`. -/
def nominal (b L : ℤ) (n : ℕ) : ℤ := (advanceState^[n] (configB b L)).delay

/-- The nominal sequence the code actually produces in the concrete scenario
(base 500ms, limit 60000ms), in nanoseconds: the last doubling overshoots
the limit to 64000ms and stays there. -/
def scenarioSeq (k : ℕ) : ℤ :=
  (([0, 500, 1000, 2000, 4000, 8000, 16000, 32000, 64000, 64000, 64000] :
    List ℤ).map (fun x => x * 1000000)).getD k 0

/-- A constructor-produced state whose next doubling overflows int64:
initial delay `2^62` ns with exponential limit `2^63 - 1` ns (both are legal
`time.Duration` inputs accepted by the options). -/
def overflowB : Backoff :=
  CoerceNew [(Setting.initialDelay (2 ^ 62)).toOption,
    (Setting.expLimit (2 ^ 63 - 1)).toOption]

theorem overflowB_eval :
    overflowB =
      { delay := 2 ^ 62, baseDelay := defaultBaseDelay,
        expLimit := 2 ^ 63 - 1, jitterFactor := defaultJitterFactor } := by
  norm_num [overflowB, CoerceNew, coerceLoop, Setting.toOption,
    WithInitialDelay, WithExponentialLimit, defaultBackoff]

theorem wrap64_eq_self {x : ℤ} (h1 : -(2 ^ 63) ≤ x) (h2 : x < 2 ^ 63) :
    wrap64 x = x := by
  have h3 : 0 ≤ x + 2 ^ 63 := by linarith
  have h4 : x + 2 ^ 63 < 2 ^ 64 := by
    have h5 : (2 : ℤ) ^ 64 = 2 ^ 63 + 2 ^ 63 := by norm_num
    linarith
  rw [wrap64, Int.emod_eq_of_lt h3 h4]
  ring

theorem round_mono_le {a b : ℚ} (h : a ≤ b) : round a ≤ round b := by
  rw [round_eq, round_eq]
  exact Int.floor_mono (by linarith)

theorem computeDelay_fst (b : Backoff) (u : ℚ) :
    (computeDelay b u).1 =
      goRound ((b.delay : ℚ) * (1 + (u - 1 / 2) * b.jitterFactor)) := rfl

theorem computeDelay_snd (b : Backoff) (u : ℚ) :
    (computeDelay b u).2 = advanceState b := rfl

theorem advanceState_delay (b : Backoff) :
    (advanceState b).delay =
      if b.delay = 0 then b.baseDelay
      else if b.delay < b.expLimit then wrap64 (2 * b.delay)
      else b.delay := rfl

theorem advanceState_baseDelay (b : Backoff) :
    (advanceState b).baseDelay = b.baseDelay := rfl

theorem advanceState_expLimit (b : Backoff) :
    (advanceState b).expLimit = b.expLimit := rfl

theorem advanceState_jitterFactor (b : Backoff) :
    (advanceState b).jitterFactor = b.jitterFactor := rfl

theorem advanceState_iterate_baseDelay (b : Backoff) (n : ℕ) :
    (advanceState^[n] b).baseDelay = b.baseDelay := by
  induction n with
  | zero => rfl
  | succ n ih => rw [Function.iterate_succ_apply', advanceState_baseDelay, ih]

theorem advanceState_iterate_expLimit (b : Backoff) (n : ℕ) :
    (advanceState^[n] b).expLimit = b.expLimit := by
  induction n with
  | zero => rfl
  | succ n ih => rw [Function.iterate_succ_apply', advanceState_expLimit, ih]

theorem newLoop_snd (l : List Setting) (b : Backoff) (acc : List String) :
    (newLoop (l.map Setting.toOption) b acc).2 =
      acc ++ l.filterMap Setting.errMsg := by
  induction l generalizing b acc with
  | nil => simp [newLoop]
  | cons s t ih =>
      by_cases h : s.valid
      · have h0 : s.errMsg = none := Setting.errMsg_eq_none.mpr h
        simp [newLoop, Setting.toOption_false, h, h0, ih, List.filterMap_cons]
      · have hm : ∃ m, s.errMsg = some m := by
          rcases hh : s.errMsg with _ | m
          · exact absurd (Setting.errMsg_eq_none.mp hh) h
          · exact ⟨m, rfl⟩
        obtain ⟨m, hm⟩ := hm
        simp [newLoop, Setting.toOption_false, h, hm, ih, List.filterMap_cons]

theorem newLoop_fst_of_valid (l : List Setting) (b : Backoff)
    (acc : List String) (h : ∀ s ∈ l, s.valid) :
    (newLoop (l.map Setting.toOption) b acc).1 =
      coerceLoop (l.map Setting.toOption) b := by
  induction l generalizing b acc with
  | nil => simp [newLoop, coerceLoop]
  | cons s t ih =>
      have hs : s.valid := h s (List.mem_cons_self s t)
      have ht : ∀ x ∈ t, x.valid := fun x hx => h x (List.mem_cons_of_mem s hx)
      simp [newLoop, coerceLoop, Setting.toOption_false, hs,
        Setting.toOption_true_of_valid s b hs, ih _ _ ht]

theorem configB_eval (b L : ℤ) (hb : 0 < b) (hL : 0 ≤ L) :
    configB b L =
      { delay := 0, baseDelay := b, expLimit := L,
        jitterFactor := defaultJitterFactor } := by
  simp [configB, CoerceNew, coerceLoop, Setting.toOption, WithInitialDelay,
    WithBaseDelay, WithExponentialLimit, defaultBackoff, hb, hL]

theorem nominal_zero (b L : ℤ) (hb : 0 < b) (hL : 0 ≤ L) :
    nominal b L 0 = 0 := by
  rw [nominal, Function.iterate_zero_apply, configB_eval b L hb hL]

theorem nominal_succ (b L : ℤ) (hb : 0 < b) (hL : 0 ≤ L) (n : ℕ) :
    nominal b L (n + 1) =
      if nominal b L n = 0 then b
      else if nominal b L n < L then wrap64 (2 * nominal b L n)
      else nominal b L n := by
  have hbase : (advanceState^[n] (configB b L)).baseDelay = b := by
    rw [advanceState_iterate_baseDelay, configB_eval b L hb hL]
  have hlim : (advanceState^[n] (configB b L)).expLimit = L := by
    rw [advanceState_iterate_expLimit, configB_eval b L hb hL]
  rw [nominal, Function.iterate_succ_apply', advanceState_delay, hbase, hlim]
  rfl

theorem nominal_one (b L : ℤ) (hb : 0 < b) (hL : 0 ≤ L) :
    nominal b L 1 = b := by
  rw [nominal_succ b L hb hL 0, nominal_zero b L hb hL]
  simp

theorem nominal_saturated (b L : ℤ) (hb : 0 < b) (hL : 0 ≤ L) {n : ℕ}
    (hne : nominal b L n ≠ 0) (hsat : L ≤ nominal b L n) :
    ∀ m, n ≤ m → nominal b L m = nominal b L n := by
  intro m hm
  induction m, hm using Nat.le_induction with
  | base => rfl
  | succ m hm ih =>
      rw [nominal_succ b L hb hL m, ih, if_neg hne, if_neg (not_lt.mpr hsat)]

/-- C1, counterexample: in the concrete scenario (initial 0, base 500ms,
limit 60000ms) the nominal delay before the 9th `advance` is 64000ms, not
60000ms: the code doubles whenever the delay is below the limit and never
clamps, so the nominal value overshoots and exceeds the limit forever. -/
theorem c1_counterexample :
    nominal (500 * 1000000) (60000 * 1000000) 8 = 64000 * 1000000 ∧
    nominal (500 * 1000000) (60000 * 1000000) 8 ≠ 60000 * 1000000 ∧
    (configB (500 * 1000000) (60000 * 1000000)).expLimit <
      nominal (500 * 1000000) (60000 * 1000000) 8 := by
  decide

/-- C1 (amended): for initial delay 0, base `b > 0`, limit `L ≥ 0`, the
nominal sequence starts `0, b` and then doubles (int64 arithmetic, hence
`wrap64`) exactly while strictly below `L`, so it may overshoot `L` up to a
factor of two and then never changes; concretely (base 500ms, limit
60000ms): `0, 500, 1000, 2000, 4000, 8000, 16000, 32000, 64000, 64000, …`
(ms, stored as ns). -/
theorem c1_nominal_growth (b L : ℤ) (hb : 0 < b) (hL : 0 ≤ L) :
    nominal b L 0 = 0 ∧
    nominal b L 1 = b ∧
    (∀ n, nominal b L (n + 1) =
      if nominal b L n = 0 then b
      else if nominal b L n < L then wrap64 (2 * nominal b L n)
      else nominal b L n) ∧
    (∀ n m, nominal b L n ≠ 0 → L ≤ nominal b L n → n ≤ m →
      nominal b L m = nominal b L n) ∧
    (∀ k, k ≤ 10 →
      nominal (500 * 1000000) (60000 * 1000000) k = scenarioSeq k) ∧
    (∀ n, 8 ≤ n →
      nominal (500 * 1000000) (60000 * 1000000) n = 64000 * 1000000) := by
  refine ⟨nominal_zero b L hb hL, nominal_one b L hb hL,
    nominal_succ b L hb hL, ?_, ?_, ?_⟩
  · intro n m hne hsat hnm
    exact nominal_saturated b L hb hL hne hsat m hnm
  · decide
  · intro n hn
    have h8 : nominal (500 * 1000000) (60000 * 1000000) 8 =
        64000 * 1000000 := by decide
    have := nominal_saturated (500 * 1000000) (60000 * 1000000)
      (by norm_num) (by norm_num) (n := 8) (by decide) (by decide) n hn
    rw [this, h8]

/-- C1 witness: the amended growth law instantiated at the concrete
scenario configuration. -/
theorem c1_nominal_growth_witness :
    nominal (500 * 1000000) (60000 * 1000000) 1 = 500 * 1000000 :=
  (c1_nominal_growth (500 * 1000000) (60000 * 1000000) (by norm_num)
    (by norm_num)).2.1

/-- C2, counterexample: from the constructor-produced state with delay
`2^62` ns and limit `2^63 - 1` ns (a reachable state: `d0 ≠ 0`,
`d0 < exponential_limit`), one `advance` sets `current_delay` to the int64
wraparound `-2^63`, not to `2 * d0 = 2^63`. -/
theorem c2_counterexample :
    overflowB.delay = 2 ^ 62 ∧
    overflowB.delay ≠ 0 ∧
    overflowB.delay < overflowB.expLimit ∧
    (computeDelay overflowB (1 / 2)).2.delay ≠ 2 * overflowB.delay ∧
    (computeDelay overflowB (1 / 2)).2.delay = -(2 ^ 63) := by
  decide

/-- C2 (amended): one `advance` updates `current_delay` using only the
pre-jitter nominal `d0` — the update is independent of the random draw and
of the jittered return value, and the other three fields are untouched;
`d0 = 0` gives `base_delay`; `0 ≠ d0 < exponential_limit` gives `2 * d0`
wrapped into int64 (equal to `2 * d0` whenever that fits in int64);
`d0 ≥ exponential_limit` leaves it unchanged. -/
theorem c2_state_update (b : Backoff) (u v : ℚ) :
    (computeDelay b u).2 = advanceState b ∧
    (computeDelay b u).2 = (computeDelay b v).2 ∧
    (advanceState b).baseDelay = b.baseDelay ∧
    (advanceState b).expLimit = b.expLimit ∧
    (advanceState b).jitterFactor = b.jitterFactor ∧
    (b.delay = 0 → (advanceState b).delay = b.baseDelay) ∧
    (b.delay ≠ 0 → b.delay < b.expLimit →
      (advanceState b).delay = wrap64 (2 * b.delay)) ∧
    (b.delay ≠ 0 → b.delay < b.expLimit → -(2 ^ 63) ≤ 2 * b.delay →
      2 * b.delay < 2 ^ 63 → (advanceState b).delay = 2 * b.delay) ∧
    (b.delay ≠ 0 → b.expLimit ≤ b.delay → (advanceState b).delay = b.delay) := by
  refine ⟨rfl, rfl, rfl, rfl, rfl, ?_, ?_, ?_, ?_⟩
  · intro h0
    rw [advanceState_delay, if_pos h0]
  · intro h0 hlt
    rw [advanceState_delay, if_neg h0, if_pos hlt]
  · intro h0 hlt hr1 hr2
    rw [advanceState_delay, if_neg h0, if_pos hlt, wrap64_eq_self hr1 hr2]
  · intro h0 hge
    rw [advanceState_delay, if_neg h0, if_neg (not_lt.mpr hge)]

/-- C2 witness: the amended update rule at a concrete growing state: delay
1000 ns, limit 5000 ns, so one `advance` doubles the delay to 2000 ns. -/
theorem c2_state_update_witness :
    (advanceState (Backoff.mk 1000 100 5000 (3 / 10))).delay = 2 * 1000 :=
  (c2_state_update (Backoff.mk 1000 100 5000 (3 / 10)) 0
    (1 / 4)).2.2.2.2.2.2.2.1 (by decide) (by decide) (by decide) (by decide)

/-- C7, counterexample: the constructor-produced state `overflowB`
satisfies every constructor guarantee (`delay ≥ 0`, `base_delay > 0`,
`exponential_limit ≥ 0`, jitter factor in `[0,1)`), yet a single `advance`
makes `current_delay` negative by int64 overflow of the doubling. -/
theorem c7_counterexample :
    0 ≤ overflowB.delay ∧ 0 < overflowB.baseDelay ∧
    0 ≤ overflowB.expLimit ∧ 0 ≤ overflowB.jitterFactor ∧
    overflowB.jitterFactor < 1 ∧
    (advanceState overflowB).delay < 0 := by
  rw [overflowB_eval]
  refine ⟨by norm_num, by norm_num [defaultBaseDelay], by norm_num,
    by norm_num [defaultJitterFactor], by norm_num [defaultJitterFactor], ?_⟩
  rw [advanceState_delay]
  norm_num [wrap64]

/-- C7 (amended): for every state with `current_delay ≥ 0`,
`base_delay > 0`, and `exponential_limit ≤ 2^62` ns (so the doubling can
never overflow int64; every realistic configuration satisfies this —
`2^62` ns is about 146 years), `current_delay` stays non-negative after any
number of `advance` calls. -/
theorem c7_delay_nonneg (b : Backoff) (hd : 0 ≤ b.delay)
    (hbase : 0 < b.baseDelay) (hlim : b.expLimit ≤ 2 ^ 62) :
    ∀ n, 0 ≤ (advanceState^[n] b).delay := by
  intro n
  induction n with
  | zero => exact hd
  | succ n ih =>
      rw [Function.iterate_succ_apply', advanceState_delay]
      by_cases h0 : (advanceState^[n] b).delay = 0
      · rw [if_pos h0, advanceState_iterate_baseDelay]
        exact hbase.le
      · rw [if_neg h0]
        by_cases hlt :
            (advanceState^[n] b).delay < (advanceState^[n] b).expLimit
        · rw [if_pos hlt]
          have hup : (advanceState^[n] b).delay < 2 ^ 62 := by
            have h1 : (advanceState^[n] b).expLimit = b.expLimit :=
              advanceState_iterate_expLimit b n
            rw [h1] at hlt
            exact lt_of_lt_of_le hlt hlim
          rw [wrap64_eq_self (by linarith) (by linarith)]
          linarith
        · rw [if_neg hlt]
          exact ih

/-- C7 witness: the amended invariant at the default configuration after
three advances. -/
theorem c7_delay_nonneg_witness : 0 ≤ (advanceState^[3] defaultBackoff).delay :=
  c7_delay_nonneg defaultBackoff (by decide) (by decide) (by decide) 3

/-- C3: strict construction fails exactly when some supplied setting
violates its constraint, and on failure the error is the accumulated list
of every violated constraint's message, in order — in particular it
contains the message of each invalid setting (no short-circuit); no object
is returned (`Except.error` carries no `Backoff`). -/
theorem c3_strict_validation (l : List Setting) :
    ((∃ e, New (l.map Setting.toOption) = Except.error e) ↔
      ∃ s ∈ l, ¬ s.valid) ∧
    (∀ e, New (l.map Setting.toOption) = Except.error e →
      e = l.filterMap Setting.errMsg ∧
      ∀ s ∈ l, ¬ s.valid → ∃ m, s.errMsg = some m ∧ m ∈ e) := by
  have hsnd : (newLoop (l.map Setting.toOption) defaultBackoff []).2 =
      l.filterMap Setting.errMsg := by
    rw [newLoop_snd]
    rfl
  by_cases hE : l.filterMap Setting.errMsg = []
  · have hok : New (l.map Setting.toOption) =
        Except.ok (newLoop (l.map Setting.toOption) defaultBackoff []).1 := by
      rw [New, hsnd, if_pos hE]
    constructor
    · constructor
      · rintro ⟨e, he⟩
        rw [hok] at he
        exact absurd he (by simp)
      · rintro ⟨s, hs, hinv⟩
        have : s.errMsg = none := by
          have := List.filterMap_eq_nil_iff.mp hE s hs
          exact this
        exact absurd (Setting.errMsg_eq_none.mp this) hinv
    · intro e he
      rw [hok] at he
      exact absurd he (by simp)
  · have herr : New (l.map Setting.toOption) =
        Except.error (l.filterMap Setting.errMsg) := by
      rw [New, hsnd, if_neg hE]
    constructor
    · constructor
      · intro _
        by_contra hall
        push_neg at hall
        exact hE (List.filterMap_eq_nil_iff.mpr fun s hs =>
          Setting.errMsg_eq_none.mpr (hall s hs))
      · intro _
        exact ⟨l.filterMap Setting.errMsg, herr⟩
    · intro e he
      rw [herr] at he
      have he' : l.filterMap Setting.errMsg = e := by
        injection he with h
      refine ⟨he'.symm, ?_⟩
      intro s hs hinv
      have hm : ∃ m, s.errMsg = some m := by
        rcases hh : s.errMsg with _ | m
        · exact absurd (Setting.errMsg_eq_none.mp hh) hinv
        · exact ⟨m, rfl⟩
      obtain ⟨m, hm⟩ := hm
      refine ⟨m, hm, ?_⟩
      rw [← he']
      exact List.mem_filterMap.mpr ⟨s, hs, hm⟩

/-- C3 witness: two invalid settings (base delay 0, jitter factor 2)
produce one accumulated error carrying both messages, in order. -/
theorem c3_strict_validation_witness :
    New ([Setting.baseDelay 0, Setting.jitterFactor 2].map Setting.toOption) =
      Except.error ["the base delay must be > 0",
        "the jitterFactor must be in the range [0,1)"] := by
  have hinv : ¬ (Setting.baseDelay 0).valid := by
    simp [Setting.valid]
  obtain ⟨e, he⟩ :=
    (c3_strict_validation [Setting.baseDelay 0, Setting.jitterFactor 2]).1.mpr
      ⟨Setting.baseDelay 0, by simp, hinv⟩
  have h2 :=
    ((c3_strict_validation [Setting.baseDelay 0, Setting.jitterFactor 2]).2
      e he).1
  rw [h2] at he
  simpa [Setting.errMsg] using he

/-- C4: coercing construction never fails (every option applied with
`coerce = true` returns a nil error), and each invalid supplied setting is
replaced by its documented fallback: negative initial delay becomes 0, a
non-positive base delay keeps the default 100ms, a negative exponential
limit becomes 0, a negative jitter factor becomes 0, and a jitter factor
`≥ 1` keeps the default 0.3. -/
theorem c4_coerce_fallbacks :
    (∀ (s : Setting) (b : Backoff), (s.toOption b true).2 = none) ∧
    (∀ d : ℤ, d < 0 →
      (CoerceNew [(Setting.initialDelay d).toOption]).delay = 0) ∧
    (∀ d : ℤ, d ≤ 0 →
      (CoerceNew [(Setting.baseDelay d).toOption]).baseDelay =
        defaultBaseDelay) ∧
    (∀ d : ℤ, d < 0 →
      (CoerceNew [(Setting.expLimit d).toOption]).expLimit = 0) ∧
    (∀ j : ℚ, j < 0 →
      (CoerceNew [(Setting.jitterFactor j).toOption]).jitterFactor = 0) ∧
    (∀ j : ℚ, 1 ≤ j →
      (CoerceNew [(Setting.jitterFactor j).toOption]).jitterFactor =
        defaultJitterFactor) := by
  refine ⟨Setting.toOption_true_snd, ?_, ?_, ?_, ?_, ?_⟩
  · intro d hd
    simp [CoerceNew, coerceLoop, Setting.toOption, WithInitialDelay,
      not_le.mpr hd]
  · intro d hd
    simp [CoerceNew, coerceLoop, Setting.toOption, WithBaseDelay,
      not_lt.mpr hd, defaultBackoff]
  · intro d hd
    simp [CoerceNew, coerceLoop, Setting.toOption, WithExponentialLimit,
      not_le.mpr hd]
  · intro j hj
    simp [CoerceNew, coerceLoop, Setting.toOption, WithJitterFactor,
      not_le.mpr hj, hj]
  · intro j hj
    have h0 : ¬ j < 0 := not_lt.mpr (le_trans zero_le_one hj)
    simp [CoerceNew, coerceLoop, Setting.toOption, WithJitterFactor,
      not_lt.mpr hj, h0, defaultBackoff]

/-- C4 witness: the fallback table at concrete invalid inputs. -/
theorem c4_coerce_fallbacks_witness :
    (CoerceNew [(Setting.initialDelay (-5)).toOption]).delay = 0 ∧
    (CoerceNew [(Setting.baseDelay 0).toOption]).baseDelay =
      defaultBaseDelay ∧
    (CoerceNew [(Setting.expLimit (-7)).toOption]).expLimit = 0 ∧
    (CoerceNew [(Setting.jitterFactor (-1 / 2)).toOption]).jitterFactor = 0 ∧
    (CoerceNew [(Setting.jitterFactor 1).toOption]).jitterFactor =
      defaultJitterFactor :=
  ⟨c4_coerce_fallbacks.2.1 (-5) (by norm_num),
   c4_coerce_fallbacks.2.2.1 0 (by norm_num),
   c4_coerce_fallbacks.2.2.2.1 (-7) (by norm_num),
   c4_coerce_fallbacks.2.2.2.2.1 (-1 / 2) (by norm_num),
   c4_coerce_fallbacks.2.2.2.2.2 1 (by norm_num)⟩

/-- C6: when every supplied setting satisfies its constraint, strict
construction succeeds, and the object it returns is identical (all four
fields) to the one coercing construction builds from the same settings. -/
theorem c6_valid_coincide (l : List Setting) (h : ∀ s ∈ l, s.valid) :
    New (l.map Setting.toOption) =
      Except.ok (CoerceNew (l.map Setting.toOption)) := by
  have hE : l.filterMap Setting.errMsg = [] :=
    List.filterMap_eq_nil_iff.mpr fun s hs => Setting.errMsg_eq_none.mpr (h s hs)
  have hsnd : (newLoop (l.map Setting.toOption) defaultBackoff []).2 = [] := by
    rw [newLoop_snd]
    simpa using hE
  rw [New, hsnd, if_pos rfl, newLoop_fst_of_valid l defaultBackoff [] h]
  rfl

/-- C6 witness: the concrete scenario settings are valid and both
constructors produce the same object. -/
theorem c6_valid_coincide_witness :
    New ([Setting.initialDelay 0, Setting.baseDelay (500 * 1000000),
        Setting.expLimit (60000 * 1000000)].map Setting.toOption) =
      Except.ok (CoerceNew ([Setting.initialDelay 0,
        Setting.baseDelay (500 * 1000000),
        Setting.expLimit (60000 * 1000000)].map Setting.toOption)) :=
  c6_valid_coincide _ (by decide)

/-- C5: for jitter factor `j ∈ [0,1)`, nominal delay `d0 > 0` and draw
`u ∈ [0,1)`, the value `advance` returns is the rounding of a real in
`[d0·(1 − j/2), d0·(1 + j/2)]`, hence lies between the roundings of the two
endpoints; and with `j = 0` the return value is exactly `d0`. -/
theorem c5_jitter_bound (b : Backoff) (u : ℚ) (hj0 : 0 ≤ b.jitterFactor)
    (hj1 : b.jitterFactor < 1) (hd : 0 < b.delay) (hu0 : 0 ≤ u)
    (hu1 : u < 1) :
    round ((b.delay : ℚ) * (1 - b.jitterFactor / 2)) ≤
      (computeDelay b u).1 ∧
    (computeDelay b u).1 ≤
      round ((b.delay : ℚ) * (1 + b.jitterFactor / 2)) ∧
    (b.jitterFactor = 0 → (computeDelay b u).1 = b.delay) := by
  have hd' : (0 : ℚ) < (b.delay : ℚ) := by exact_mod_cast hd
  have hml : 1 - b.jitterFactor / 2 ≤ 1 + (u - 1 / 2) * b.jitterFactor := by
    nlinarith [mul_nonneg hu0 hj0]
  have hmu : 1 + (u - 1 / 2) * b.jitterFactor ≤ 1 + b.jitterFactor / 2 := by
    nlinarith [mul_nonneg (sub_nonneg.mpr hu1.le) hj0]
  have hxl : (b.delay : ℚ) * (1 - b.jitterFactor / 2) ≤
      (b.delay : ℚ) * (1 + (u - 1 / 2) * b.jitterFactor) :=
    mul_le_mul_of_nonneg_left hml hd'.le
  have hxu : (b.delay : ℚ) * (1 + (u - 1 / 2) * b.jitterFactor) ≤
      (b.delay : ℚ) * (1 + b.jitterFactor / 2) :=
    mul_le_mul_of_nonneg_left hmu hd'.le
  have hx0 : 0 ≤ (b.delay : ℚ) * (1 + (u - 1 / 2) * b.jitterFactor) := by
    nlinarith
  have hg : (computeDelay b u).1 =
      round ((b.delay : ℚ) * (1 + (u - 1 / 2) * b.jitterFactor)) := by
    rw [computeDelay_fst, goRound, if_neg (not_lt.mpr hx0)]
  refine ⟨?_, ?_, ?_⟩
  · rw [hg]
    exact round_mono_le hxl
  · rw [hg]
    exact round_mono_le hxu
  · intro hj
    have hone : (b.delay : ℚ) * (1 + (u - 1 / 2) * b.jitterFactor) =
        ((b.delay : ℤ) : ℚ) := by
      rw [hj]
      ring
    rw [hg, hone, round_intCast]

/-- C5 witness: delay 1000 ns, jitter factor 0.3, draw 3/4 — the returned
value 1075 lies between the rounded endpoints 850 and 1150. -/
theorem c5_jitter_bound_witness :
    round (((1000 : ℤ) : ℚ) * (1 - (3 / 10 : ℚ) / 2)) ≤
      (computeDelay (Backoff.mk 1000 100 5000 (3 / 10)) (3 / 4)).1 ∧
    (computeDelay (Backoff.mk 1000 100 5000 (3 / 10)) (3 / 4)).1 ≤
      round (((1000 : ℤ) : ℚ) * (1 + (3 / 10 : ℚ) / 2)) :=
  ⟨(c5_jitter_bound (Backoff.mk 1000 100 5000 (3 / 10)) (3 / 4) (by norm_num)
      (by norm_num) (by norm_num) (by norm_num) (by norm_num)).1,
   (c5_jitter_bound (Backoff.mk 1000 100 5000 (3 / 10)) (3 / 4) (by norm_num)
      (by norm_num) (by norm_num) (by norm_num) (by norm_num)).2.1⟩

/-- C8: `PeekDelay` returns `current_delay` — exactly the pre-jitter `d0`
that the next `advance` call feeds into both the jittered return value and
the state update — and, being a plain function of the state that takes no
random draw, it mutates nothing and consumes no randomness, so repeated
calls agree. -/
theorem c8_peek_delay (b : Backoff) :
    PeekDelay b = b.delay ∧
    (∀ u, (computeDelay b u).1 =
      goRound ((PeekDelay b : ℚ) * (1 + (u - 1 / 2) * b.jitterFactor))) ∧
    (∀ u, (computeDelay b u).2.delay =
      if PeekDelay b = 0 then b.baseDelay
      else if PeekDelay b < b.expLimit then wrap64 (2 * PeekDelay b)
      else PeekDelay b) :=
  ⟨rfl, fun _ => rfl, fun _ => rfl⟩

/-- C9: when `current_delay = 0`, `advance` returns exactly 0 for every
jitter factor in `[0,1)` and every draw in `[0,1)`: the multiplier scales
zero and rounding zero yields zero. -/
theorem c9_zero_delay (b : Backoff) (u : ℚ) (hd : b.delay = 0)
    (_hj0 : 0 ≤ b.jitterFactor) (_hj1 : b.jitterFactor < 1) (_hu0 : 0 ≤ u)
    (_hu1 : u < 1) :
    (computeDelay b u).1 = 0 := by
  rw [computeDelay_fst, hd]
  norm_num [goRound]

/-- C9 witness: a state with zero delay and the default jitter factor
returns exactly 0. -/
theorem c9_zero_delay_witness :
    (computeDelay (Backoff.mk 0 100 5000 (3 / 10)) (1 / 4)).1 = 0 :=
  c9_zero_delay (Backoff.mk 0 100 5000 (3 / 10)) (1 / 4) rfl (by norm_num)
    (by norm_num) (by norm_num) (by norm_num)

/-- C10: for `current_delay ≥ 0`, jitter factor in `[0,1)` and draw in
`[0,1)`, the jitter multiplier is strictly greater than 1/2, so the value
`advance` returns is never negative. -/
theorem c10_return_nonneg (b : Backoff) (u : ℚ) (hd : 0 ≤ b.delay)
    (hj0 : 0 ≤ b.jitterFactor) (hj1 : b.jitterFactor < 1) (hu0 : 0 ≤ u)
    (_hu1 : u < 1) :
    (1 : ℚ) / 2 < 1 + (u - 1 / 2) * b.jitterFactor ∧
    0 ≤ (computeDelay b u).1 := by
  have hm : (1 : ℚ) / 2 < 1 + (u - 1 / 2) * b.jitterFactor := by
    nlinarith [mul_nonneg hu0 hj0]
  have hd' : (0 : ℚ) ≤ (b.delay : ℚ) := by exact_mod_cast hd
  have hx : 0 ≤ (b.delay : ℚ) * (1 + (u - 1 / 2) * b.jitterFactor) :=
    mul_nonneg hd' (by linarith)
  refine ⟨hm, ?_⟩
  rw [computeDelay_fst, goRound, if_neg (not_lt.mpr hx), round_eq]
  exact Int.floor_nonneg.mpr (by linarith)

/-- C10 witness: delay 1000 ns, jitter 0.3, draw 0 (the worst case pulls
the multiplier to 0.85, still positive) — the return value is
non-negative. -/
theorem c10_return_nonneg_witness :
    0 ≤ (computeDelay (Backoff.mk 1000 100 5000 (3 / 10)) 0).1 :=
  (c10_return_nonneg (Backoff.mk 1000 100 5000 (3 / 10)) 0 (by norm_num)
    (by norm_num) (by norm_num) (by norm_num) (by norm_num)).2

end BackoffPkg
